import Mathlib

/-!
Shallow embedding of the `DSimpleListView` virtualized list engine
(`src/widgets/dsimplelistview.cpp`) and of `DPageIndicatorPrivate::setCurrentPage`
(`src/widgets/dpageindicator.cpp`).

Modelling conventions:
* `DSimpleListItem*` values are modelled by opaque identities (`Item := Nat`);
  Qt's pointer comparison (`==`, `indexOf`, `removeOne`, `contains`) and the
  engine's `sameAs` are both modelled as identity equality.
* C++ `int` is modelled as `Int`; C++ integer division truncates toward zero,
  which is `Int.tdiv`.
* The scrollbar geometry expressions are computed in `double` in the source and
  truncated toward zero when converted back to `int`.  They are modelled as the
  exact rational value truncated toward zero: an expression of the form
  `x / (y * 1.0) * z` (with `x y z : int`) becomes `Int.tdiv (x * z) y`.
  Division by zero (possible in C++ only through NaN/UB paths) yields 0.
* `std::sort` with a strict comparator `comp` is modelled as `List.mergeSort`
  over the complementary non-strict order `fun a b => !(comp b a)`; when `comp`
  is a strict total order this is the unique sorted permutation, which is the
  only output `std::sort` may produce.
* Paint-only fields (hover items, hover columns, timers) are not part of the
  modelled state; event branches that only touch them are identities here.
-/

abbrev Item := Nat

/-- The scroll/selection/sort/search state of `DSimpleListView`
(fields of `DSimpleListViewPrivate` that the modelled operations read or write;
`widgetHeight` is `rect().height()`). -/
structure LV where
  listItems : List Item
  renderItems : List Item
  selectionItems : List Item
  lastSelectItem : Option Item
  columnTitles : List String
  sortingAlgorithms : List (Item → Item → Bool → Bool)
  sortingOrderes : List Bool
  searchContent : String
  searchAlgorithm : Option (Item → String → Bool)
  defaultSortingColumn : Int
  defaultSortingOrder : Bool
  isSingleSelect : Bool
  mouseDragScrollbar : Bool
  renderOffset : Int
  oldRenderOffset : Int
  rowHeight : Int
  scrollUnit : Int
  titleHeight : Int
  widgetHeight : Int
  scrollbarMinHeight : Int

/-- `QList::indexOf`: index of the first occurrence, or `-1` if absent. -/
def indexOfInt (l : List Item) (x : Item) : Int :=
  match l.findIdx? (fun y => y == x) with
  | some n => (n : Int)
  | none => -1

/-- `QList::operator[]` with an `int` index; out-of-range access (undefined
behaviour in C++) is `none`. -/
def listGetInt {α : Type} (l : List α) (i : Int) : Option α :=
  if i < 0 then none else l[i.toNat]?

/-- `DSimpleListViewPrivate::getItemsTotalHeight`. -/
def getItemsTotalHeight (st : LV) : Int :=
  (st.renderItems.length : Int) * st.rowHeight

/-- `DSimpleListView::getScrollAreaHeight`: `rect().height() - titleHeight`. -/
def getScrollAreaHeight (st : LV) : Int :=
  st.widgetHeight - st.titleHeight

/-- `DSimpleListViewPrivate::getTopRenderOffset`. -/
def getTopRenderOffset : Int := 0

/-- `DSimpleListView::getBottomRenderOffset`. -/
def getBottomRenderOffset (st : LV) : Int :=
  if getItemsTotalHeight st > st.widgetHeight - st.titleHeight then
    getItemsTotalHeight st - st.widgetHeight + st.titleHeight
  else
    0

/-- `DSimpleListView::adjustRenderOffset`:
`std::max(0, std::min(offset, getBottomRenderOffset()))`. -/
def adjustRenderOffset (st : LV) (offset : Int) : Int :=
  max 0 (min offset (getBottomRenderOffset st))

/-- `DSimpleListView::getScrollbarHeight`:
`std::max(int(getScrollAreaHeight() / (getItemsTotalHeight() * 1.0) * rect().height()), scrollbarMinHeight)`. -/
def getScrollbarHeight (st : LV) : Int :=
  max (Int.tdiv (getScrollAreaHeight st * st.widgetHeight) (getItemsTotalHeight st))
    st.scrollbarMinHeight

/-- `DSimpleListView::getScrollbarY`:
`qMin(int((renderOffset / (getItemsTotalHeight() * 1.0)) * getScrollAreaHeight() + titleHeight), rect().height() - getScrollbarHeight())`. -/
def getScrollbarY (st : LV) : Int :=
  min
    (Int.tdiv (st.renderOffset * getScrollAreaHeight st +
        st.titleHeight * getItemsTotalHeight st) (getItemsTotalHeight st))
    (st.widgetHeight - getScrollbarHeight st)

/-- `DSimpleListViewPrivate::getSearchItems`: identity when no search string or
no search algorithm is set, otherwise filters by the algorithm. -/
def getSearchItems (st : LV) (items : List Item) : List Item :=
  if st.searchContent = "" ∨ st.searchAlgorithm.isNone then
    items
  else
    items.filter (fun it => (st.searchAlgorithm.getD (fun _ _ => false)) it st.searchContent)

/-- `DSimpleListViewPrivate::sortItemsByColumn`: guarded by the comparator /
column-count consistency check, then `std::sort` of `renderItems` with the
column's comparator. -/
def sortItemsByColumn (st : LV) (column : Int) (descendingSort : Bool) : LV :=
  if st.sortingAlgorithms.length ≠ 0 ∧
      st.sortingAlgorithms.length = st.columnTitles.length ∧
      st.sortingOrderes.length = st.columnTitles.length then
    let alg := (listGetInt st.sortingAlgorithms column).getD (fun _ _ _ => false)
    { st with renderItems := st.renderItems.mergeSort (fun a b => !(alg b a descendingSort)) }
  else st

/-- `DSimpleListView::clearSelections`. -/
def clearSelections (st : LV) (clearLastSelection : Bool) : LV :=
  { st with selectionItems := [],
            lastSelectItem := if clearLastSelection then none else st.lastSelectItem }

/-- `DSimpleListView::addSelections`. -/
def addSelections (st : LV) (items : List Item) (recordLastSelection : Bool) : LV :=
  let sel := st.selectionItems ++ items
  { st with selectionItems := sel,
            lastSelectItem :=
              if recordLastSelection ∧ sel.length > 0 then sel.getLast? else st.lastSelectItem }

/-- `DSimpleListView::addItems`: append to `listItems`, append the
search-filtered new items to `renderItems`, then sort if a default sorting
column is set. -/
def addItems (st : LV) (items : List Item) : LV :=
  let st := { st with listItems := st.listItems ++ items,
                      renderItems := st.renderItems ++ getSearchItems st items }
  if st.defaultSortingColumn ≠ -1 then
    sortItemsByColumn st st.defaultSortingColumn st.defaultSortingOrder
  else st

/-- `DSimpleListView::removeItem`: remove (first occurrence, by identity) from
both sequences, then pull the offset up one row if it now sticks out past the
content (`renderOffset >= getItemsTotalHeight() - rect().height()`). -/
def removeItem (st : LV) (item : Item) : LV :=
  let st1 : LV := { st with listItems := st.listItems.erase item,
                            renderItems := st.renderItems.erase item }
  if st1.renderOffset ≥ getItemsTotalHeight st1 - st1.widgetHeight then
    { st1 with renderOffset := adjustRenderOffset st1 (st1.renderOffset - st1.rowHeight) }
  else st1

/-- `DSimpleListView::clearItems` (membership part; item deletion is ownership
bookkeeping with no modelled effect). -/
def clearItems (st : LV) : LV :=
  { st with listItems := [], renderItems := [] }

/-- `DSimpleListView::refreshItems`: re-match selection and anchors by `sameAs`
against the new items, replace both sequences (search-filtered), re-sort if a
default sorting column is set, and clamp the kept scroll position. -/
def refreshItems (st : LV) (items : List Item) : LV :=
  let newSelectionItems := items.filter (fun it => st.selectionItems.any (fun s => it == s))
  let newLastSelectionItem :=
    match st.lastSelectItem with
    | none => none
    | some l => items.find? (fun it => it == l)
  let st1 : LV := { clearItems st with listItems := items, renderItems := getSearchItems st items }
  let st2 : LV :=
    if st1.defaultSortingColumn ≠ -1 then
      sortItemsByColumn st1 st1.defaultSortingColumn st1.defaultSortingOrder
    else st1
  let st3 := addSelections (clearSelections st2 true) newSelectionItems false
  let st4 := { st3 with lastSelectItem := newLastSelectionItem }
  { st4 with renderOffset := adjustRenderOffset st4 st4.renderOffset }

/-- `DSimpleListView::search`: an empty search text that differs from the
previous one restores `renderItems` to all of `listItems`; otherwise the
(updated) search string is applied to `listItems`. -/
def search (st : LV) (content : String) : LV :=
  if content = "" ∧ st.searchContent ≠ content then
    { st with searchContent := content, renderItems := st.listItems }
  else
    let st := { st with searchContent := content }
    { st with renderItems := getSearchItems st st.listItems }

/-- `DSimpleListView::selectAllItems` (no-op in single-select mode). -/
def selectAllItems (st : LV) : LV :=
  if !st.isSingleSelect then
    let st := { st with oldRenderOffset := st.renderOffset }
    let st := addSelections (clearSelections st true) st.renderItems true
    { st with renderOffset := getTopRenderOffset }
  else st

/-- `DSimpleListView::selectFirstItem`. -/
def selectFirstItem (st : LV) : LV :=
  match st.renderItems with
  | [] => st
  | first :: _ =>
    let st := { st with oldRenderOffset := st.renderOffset }
    let st := addSelections (clearSelections st true) [first] true
    { st with renderOffset := getTopRenderOffset }

/-- `DSimpleListView::selectLastItem`. -/
def selectLastItem (st : LV) : LV :=
  if st.renderItems.isEmpty then st
  else
    let st := { st with oldRenderOffset := st.renderOffset }
    let st := addSelections (clearSelections st true) [st.renderItems.getLast?.getD 0] true
    { st with renderOffset := getBottomRenderOffset st }

/-- `DSimpleListView::selectNextItemWithOffset`.  The result is `none` exactly
when the C++ code would index `renderItems` out of range (undefined
behaviour). -/
def selectNextItemWithOffset (st : LV) (scrollOffset : Int) : Option LV :=
  let st := { st with oldRenderOffset := st.renderOffset }
  if st.selectionItems.isEmpty then
    some (selectFirstItem st)
  else
    let lastIndex := st.selectionItems.foldl
      (fun acc it => max acc (indexOfInt st.renderItems it)) 0
    if lastIndex ≠ -1 then
      let lastIndex := min ((st.renderItems.length : Int) - 1) (lastIndex + scrollOffset)
      match listGetInt st.renderItems lastIndex with
      | none => none
      | some it =>
        let st := addSelections (clearSelections st false) [it] true
        let itemIndex := lastIndex + 1
        let itemOffset := adjustRenderOffset st
          (itemIndex * st.rowHeight - st.widgetHeight + st.titleHeight)
        some (if Int.tdiv (st.renderOffset + getScrollAreaHeight st) st.rowHeight < itemIndex
          then { st with renderOffset := itemOffset } else st)
    else some st

/-- `DSimpleListView::selectPrevItemWithOffset`. -/
def selectPrevItemWithOffset (st : LV) (scrollOffset : Int) : Option LV :=
  let st := { st with oldRenderOffset := st.renderOffset }
  if st.selectionItems.isEmpty then
    some (selectFirstItem st)
  else
    let firstIndex := st.selectionItems.foldl
      (fun acc it => min acc (indexOfInt st.renderItems it)) (st.renderItems.length : Int)
    if firstIndex ≠ -1 then
      let firstIndex := max 0 (firstIndex - scrollOffset)
      match listGetInt st.renderItems firstIndex with
      | none => none
      | some it =>
        let st := addSelections (clearSelections st true) [it] true
        let itemIndex := firstIndex - 1
        let itemOffset := adjustRenderOffset st (itemIndex * st.rowHeight + st.titleHeight)
        some (if Int.tdiv st.renderOffset st.rowHeight > itemIndex
          then { st with renderOffset := itemOffset } else st)
    else some st

/-- `DSimpleListView::shiftSelectItemsWithBound`: select exactly the render
items whose index lies in `[selectionStartIndex, selectionEndIndex]`. -/
def shiftSelectItemsWithBound (st : LV) (selectionStartIndex selectionEndIndex : Int) : LV :=
  let st := clearSelections st false
  let items := (st.renderItems.enum.filter
    (fun p => selectionStartIndex ≤ (p.1 : Int) ∧ (p.1 : Int) ≤ selectionEndIndex)).map (·.2)
  addSelections st items false

/-- `DSimpleListView::shiftSelectNextItemWithOffset`. -/
def shiftSelectNextItemWithOffset (st : LV) (scrollOffset : Int) : LV :=
  let st := { st with oldRenderOffset := st.renderOffset }
  if st.selectionItems.isEmpty then
    selectFirstItem st
  else
    let firstIndex := st.selectionItems.foldl
      (fun acc it => min acc (indexOfInt st.renderItems it)) (st.renderItems.length : Int)
    let lastIndex := st.selectionItems.foldl
      (fun acc it => max acc (indexOfInt st.renderItems it)) 0
    if firstIndex ≠ -1 then
      let lastSelectionIndex :=
        match st.lastSelectItem with
        | none => (-1 : Int)
        | some l => indexOfInt st.renderItems l
      let bounds :=
        if firstIndex = lastSelectionIndex then
          (firstIndex, min ((st.renderItems.length : Int) - 1) (lastIndex + scrollOffset))
        else
          (min ((st.renderItems.length : Int) - 1) (firstIndex + scrollOffset), lastIndex)
      let st := shiftSelectItemsWithBound st bounds.1 bounds.2
      if Int.tdiv (st.renderOffset + st.widgetHeight) st.rowHeight ≤ bounds.2 + 1 then
        { st with renderOffset := (adjustRenderOffset st
            ((bounds.2 + 1) * st.rowHeight + st.titleHeight - st.widgetHeight)) }
      else st
    else st

/-- `DSimpleListView::shiftSelectPrevItemWithOffset`. -/
def shiftSelectPrevItemWithOffset (st : LV) (scrollOffset : Int) : LV :=
  let st := { st with oldRenderOffset := st.renderOffset }
  if st.selectionItems.isEmpty then
    selectFirstItem st
  else
    let firstIndex := st.selectionItems.foldl
      (fun acc it => min acc (indexOfInt st.renderItems it)) (st.renderItems.length : Int)
    let lastIndex := st.selectionItems.foldl
      (fun acc it => max acc (indexOfInt st.renderItems it)) 0
    if firstIndex ≠ -1 then
      let lastSelectionIndex :=
        match st.lastSelectItem with
        | none => (-1 : Int)
        | some l => indexOfInt st.renderItems l
      let bounds :=
        if lastIndex = lastSelectionIndex then
          (max 0 (firstIndex - scrollOffset), lastSelectionIndex)
        else
          (firstIndex, max 0 (lastIndex - scrollOffset))
      let st := shiftSelectItemsWithBound st bounds.1 bounds.2
      if Int.tdiv st.renderOffset st.rowHeight ≥ bounds.1 then
        { st with renderOffset := (adjustRenderOffset st
            ((bounds.1 - 1) * st.rowHeight + st.titleHeight)) }
      else st
    else st

/-- `DSimpleListView::shiftSelectToEnd`. -/
def shiftSelectToEnd (st : LV) : LV :=
  if !st.isSingleSelect then
    if st.selectionItems.isEmpty then
      selectLastItem st
    else
      let lastSelectionIndex :=
        match st.lastSelectItem with
        | none => (-1 : Int)
        | some l => indexOfInt st.renderItems l
      let st := shiftSelectItemsWithBound st lastSelectionIndex
        ((st.renderItems.length : Int) - 1)
      { st with renderOffset := getBottomRenderOffset st }
  else st

/-- `DSimpleListView::shiftSelectToHome`. -/
def shiftSelectToHome (st : LV) : LV :=
  if !st.isSingleSelect then
    if st.selectionItems.isEmpty then
      selectFirstItem st
    else
      let lastSelectionIndex :=
        match st.lastSelectItem with
        | none => (-1 : Int)
        | some l => indexOfInt st.renderItems l
      let st := shiftSelectItemsWithBound st 0 lastSelectionIndex
      { st with renderOffset := getTopRenderOffset }
  else st

/-- `DSimpleListView::ctrlScrollPageUp`. -/
def ctrlScrollPageUp (st : LV) : LV :=
  { st with renderOffset := adjustRenderOffset st (st.renderOffset - getScrollAreaHeight st) }

/-- `DSimpleListView::ctrlScrollPageDown`. -/
def ctrlScrollPageDown (st : LV) : LV :=
  { st with renderOffset := adjustRenderOffset st (st.renderOffset + getScrollAreaHeight st) }

/-- `DSimpleListView::ctrlScrollToHome`. -/
def ctrlScrollToHome (st : LV) : LV :=
  { st with renderOffset := getTopRenderOffset }

/-- `DSimpleListView::ctrlScrollToEnd`. -/
def ctrlScrollToEnd (st : LV) : LV :=
  { st with renderOffset := getBottomRenderOffset st }

/-- `DSimpleListView::wheelEvent` for a vertical wheel delta:
`renderOffset := adjustRenderOffset(renderOffset - (delta/120.0) * scrollUnit)`,
modelled exactly as `tdiv (renderOffset*120 - delta*scrollUnit) 120`. -/
def wheelScroll (st : LV) (angleDeltaY : Int) : LV :=
  if angleDeltaY ≠ 0 then
    let st := { st with oldRenderOffset := st.renderOffset }
    { st with renderOffset := (adjustRenderOffset st
        (Int.tdiv (st.renderOffset * 120 - angleDeltaY * st.scrollUnit) 120)) }
  else st

/-- `DSimpleListView::mousePressEvent`, scroll-area branch: start a thumb drag
when the press is inside the thumb, otherwise jump-scroll via
`adjustRenderOffset((y - barHeight/2 - titleHeight) / (scrollAreaHeight*1.0) * itemsTotalHeight)`. -/
def scrollAreaPress (st : LV) (my : Int) : LV :=
  let barHeight := getScrollbarHeight st
  let barY := getScrollbarY st
  if barY < my ∧ my < barY + barHeight then
    { st with mouseDragScrollbar := true }
  else
    { st with renderOffset := (adjustRenderOffset st
        (Int.tdiv ((my - Int.tdiv barHeight 2 - st.titleHeight) * getItemsTotalHeight st)
          (getScrollAreaHeight st))) }

/-- `DSimpleListView::mouseMoveEvent`, scrollbar-drag branch (the other
branches only update hover/paint state, which is not modelled). -/
def dragScrollbarMove (st : LV) (my : Int) : LV :=
  if st.mouseDragScrollbar then
    let barHeight := getScrollbarHeight st
    { st with renderOffset := (adjustRenderOffset st
        (Int.tdiv ((my - Int.tdiv barHeight 2 - st.titleHeight) * getItemsTotalHeight st)
          (getScrollAreaHeight st))) }
  else st

/-- `DSimpleListView::mousePressEvent`, title-area left-click once the hit
column `column` has been determined by the render-width scan: reset a freshly
activated column's order flag to `true` ("top to bottom"), toggle the flag of
the already-active column, then sort.  Clicks that hit no column leave the
state unchanged. -/
def clickColumnHeader (st : LV) (column : Nat) : LV :=
  if st.sortingAlgorithms.length ≠ 0 ∧
      st.sortingAlgorithms.length = st.columnTitles.length ∧
      st.sortingOrderes.length = st.columnTitles.length then
    if column < st.sortingOrderes.length then
      let newOrder :=
        if (column : Int) ≠ st.defaultSortingColumn then
          true
        else
          !(st.sortingOrderes.getD column false)
      let st := { st with sortingOrderes := st.sortingOrderes.set column newOrder,
                          defaultSortingColumn := (column : Int),
                          defaultSortingOrder := newOrder }
      sortItemsByColumn st (column : Int) newOrder
    else st
  else st

/-- The row-painting loop of `DSimpleListView::paintEvent`: `i` is
`rowCounter`, `s` is `renderOffset / rowHeight`, `renderHeight` accumulates
`titleHeight` plus one `rowHeight` per painted row, and the loop breaks once
`renderHeight > rect().height()` (after painting that row).  `fuel` is the
number of remaining render items. -/
def paintLoop (s rh H : Int) (renderHeight : Int) (i : Nat) : Nat → List Nat
  | 0 => []
  | fuel + 1 =>
    if s ≤ (i : Int) then
      if renderHeight + rh > H then [i]
      else i :: paintLoop s rh H (renderHeight + rh) (i + 1) fuel
    else paintLoop s rh H renderHeight (i + 1) fuel

/-- The indices of the render items painted by one `paintEvent` pass. -/
def paintedRows (st : LV) : List Nat :=
  paintLoop (Int.tdiv st.renderOffset st.rowHeight) st.rowHeight st.widgetHeight
    (if 0 < st.titleHeight then st.titleHeight else 0) 0 st.renderItems.length

/-- The visible index range as the specification states it:
`[floor(renderOffset/rowHeight), floor((renderOffset+viewportHeight)/rowHeight)]`
intersected with the valid indices `[0, count(renderItems) - 1]`
(`viewportHeight` being the widget height minus the title height).
This definition follows the spec's words, to be compared with `paintedRows`. -/
def specVisibleRange (st : LV) : List Nat :=
  (List.range st.renderItems.length).filter
    (fun j => st.renderOffset / st.rowHeight ≤ (j : Int) ∧
      (j : Int) ≤ (st.renderOffset + (st.widgetHeight - st.titleHeight)) / st.rowHeight)

/-- State of `DPageIndicator` (`pageCount`, `currentPage` from
`DPageIndicatorPrivate`). -/
structure PageIndicator where
  pageCount : Int
  currentPage : Int

/-- `DPageIndicatorPrivate::setCurrentPage`: indices below `-1` or at/above
`pageCount` are ignored with a warning. -/
def setCurrentPage (p : PageIndicator) (index : Int) : PageIndicator :=
  if index < -1 ∨ index ≥ p.pageCount then p
  else { p with currentPage := index }

/-- One scroll-affecting operation, as enumerated by the offset-clamp claim:
wheel scroll, ctrl page/home/end scroll, scrollbar drag or track click, item
removal, `refreshItems`, and the selection operations that auto-scroll. -/
inductive ScrollOp where
  | wheel (angleDeltaY : Int)
  | ctrlPageUp
  | ctrlPageDown
  | ctrlHome
  | ctrlEnd
  | dragMove (my : Int)
  | pressScrollArea (my : Int)
  | remove (item : Item)
  | refresh (items : List Item)
  | selAll
  | selFirst
  | selLast
  | selNext (off : Int)
  | selPrev (off : Int)
  | shiftNext (off : Int)
  | shiftPrev (off : Int)
  | shiftHome
  | shiftEnd

/-- One step of the event loop; `none` marks the undefined-behaviour paths
(out-of-range `QList` indexing). -/
def stepScrollOp (st : LV) : ScrollOp → Option LV
  | ScrollOp.wheel dy => some (wheelScroll st dy)
  | ScrollOp.ctrlPageUp => some (ctrlScrollPageUp st)
  | ScrollOp.ctrlPageDown => some (ctrlScrollPageDown st)
  | ScrollOp.ctrlHome => some (ctrlScrollToHome st)
  | ScrollOp.ctrlEnd => some (ctrlScrollToEnd st)
  | ScrollOp.dragMove my => some (dragScrollbarMove st my)
  | ScrollOp.pressScrollArea my => some (scrollAreaPress st my)
  | ScrollOp.remove x => some (removeItem st x)
  | ScrollOp.refresh items => some (refreshItems st items)
  | ScrollOp.selAll => some (selectAllItems st)
  | ScrollOp.selFirst => some (selectFirstItem st)
  | ScrollOp.selLast => some (selectLastItem st)
  | ScrollOp.selNext off => selectNextItemWithOffset st off
  | ScrollOp.selPrev off => selectPrevItemWithOffset st off
  | ScrollOp.shiftNext off => some (shiftSelectNextItemWithOffset st off)
  | ScrollOp.shiftPrev off => some (shiftSelectPrevItemWithOffset st off)
  | ScrollOp.shiftHome => some (shiftSelectToHome st)
  | ScrollOp.shiftEnd => some (shiftSelectToEnd st)

/-- Run a sequence of scroll-affecting operations. -/
def execScrollOps (st : LV) : List ScrollOp → Option LV
  | [] => some st
  | op :: ops =>
    match stepScrollOp st op with
    | none => none
    | some st' => execScrollOps st' ops

/-- The offset clamp invariant of the specification:
`0 <= renderOffset <= max(0, count(renderItems)*rowHeight - viewportHeight)`
with `viewportHeight = widgetHeight - titleHeight`. -/
def scrollInvariant (st : LV) : Prop :=
  0 ≤ st.renderOffset ∧
    st.renderOffset ≤
      max 0 ((st.renderItems.length : Int) * st.rowHeight - (st.widgetHeight - st.titleHeight))

/-- The state right after the `DSimpleListView` constructor (field and
constructor initializers; `widgetHeight` is whatever the host reports). -/
def lv0 : LV :=
  { listItems := [], renderItems := [], selectionItems := [], lastSelectItem := none,
    columnTitles := [], sortingAlgorithms := [], sortingOrderes := [],
    searchContent := "", searchAlgorithm := none,
    defaultSortingColumn := 0, defaultSortingOrder := false,
    isSingleSelect := false, mouseDragScrollbar := false,
    renderOffset := 0, oldRenderOffset := 0, rowHeight := 36, scrollUnit := 0,
    titleHeight := 0, widgetHeight := 0, scrollbarMinHeight := 30 }

/-- A state with one item that is selected. -/
def lvC2 : LV := { lv0 with listItems := [7], renderItems := [7], selectionItems := [7] }

/-- A state with a non-empty active search string. -/
def lvC4 : LV :=
  { lv0 with listItems := [1, 2, 3], renderItems := [2], searchContent := "x" }

/-- The jump-scroll example state: 50 items of row height 20 in a 100px
viewport (no title), so the total content height is 1000. -/
def lvC6 : LV := { lv0 with listItems := List.range 50, renderItems := List.range 50,
                            rowHeight := 20, widgetHeight := 100 }

/-- A state with render items but no selection. -/
def lvC7 : LV := { lv0 with listItems := [4, 5, 6], renderItems := [4, 5, 6] }

/-- A page indicator state. -/
def piC8 : PageIndicator := { pageCount := 3, currentPage := 1 }

/-- A state whose sorting-algorithm count (0) differs from its column count (1). -/
def lvC8 : LV := { lv0 with columnTitles := ["col"], renderItems := [2, 1] }

/-- The comparator used in the sort-toggle witness: strictly increasing by
identity, flipped by the descending flag. -/
def algC5 : Item → Item → Bool → Bool
  | a, b, true => decide (b < a)
  | a, b, false => decide (a < b)

/-- A state with one sortable column, active and currently ascending, whose
render items are sorted accordingly. -/
def lvC5 : LV :=
  { lv0 with columnTitles := ["col"], sortingAlgorithms := [algC5],
             sortingOrderes := [false], defaultSortingColumn := 0,
             listItems := [1, 2, 3], renderItems := [1, 2, 3] }

/-- The paint-slice state of the counterexample: offset 10 into rows of height
20, a 95px widget with no title, six render items. -/
def lvC3 : LV := { lv0 with renderItems := List.range 6, rowHeight := 20,
                            widgetHeight := 95, renderOffset := 10 }

/-- A small scrollable state for the clamp-invariant witness. -/
def lvC1 : LV := { lv0 with renderItems := [0, 1, 2], listItems := [0, 1, 2],
                            rowHeight := 10, widgetHeight := 20 }

/-- C2 (counterexample): removing the sole selected item removes it from
`listItems` and `renderItems` but it stays in the selection set, contradicting
the claim that `removeItem` also removes it from the selection. -/
theorem c2_remove_selected_counterexample :
    7 ∈ lvC2.selectionItems ∧
    (removeItem lvC2 7).listItems = [] ∧
    (removeItem lvC2 7).renderItems = [] ∧
    7 ∈ (removeItem lvC2 7).selectionItems := by decide

/-- C2 (amended): for every state and every selected item `x`, `removeItem x`
removes the first occurrence of `x` from `allItems` and `renderItems` but
leaves the selection sequence entirely unchanged (so `x` itself stays selected,
and the identities of the other selected items are untouched). -/
theorem c2_remove_keeps_selection (st : LV) (x : Item) (_hx : x ∈ st.selectionItems) :
    (removeItem st x).selectionItems = st.selectionItems ∧
    (removeItem st x).listItems = st.listItems.erase x ∧
    (removeItem st x).renderItems = st.renderItems.erase x := by
  unfold removeItem
  dsimp only
  split <;> exact ⟨rfl, rfl, rfl⟩

/-- C2 witness: the amended statement at the concrete one-item state. -/
theorem c2_remove_keeps_selection_witness :
    (removeItem lvC2 7).selectionItems = lvC2.selectionItems ∧
    (removeItem lvC2 7).listItems = lvC2.listItems.erase 7 ∧
    (removeItem lvC2 7).renderItems = lvC2.renderItems.erase 7 :=
  c2_remove_keeps_selection lvC2 7 (by decide)

/-- C4: when a non-empty search string is active, `search("")` restores
`renderItems` to exactly `listItems` in insertion order (no re-sort by the
active sort column happens on this path). -/
theorem c4_search_empty_restores_insertion_order (st : LV) (h : st.searchContent ≠ "") :
    (search st "").renderItems = st.listItems ∧
    (search st "").listItems = st.listItems ∧
    (search st "").searchContent = "" := by
  unfold search
  rw [if_pos ⟨rfl, h⟩]
  exact ⟨rfl, rfl, rfl⟩

/-- C4 witness: the round trip at a concrete searched state. -/
theorem c4_search_empty_witness :
    (search lvC4 "").renderItems = lvC4.listItems ∧
    (search lvC4 "").listItems = lvC4.listItems ∧
    (search lvC4 "").searchContent = "" :=
  c4_search_empty_restores_insertion_order lvC4 (by decide)

/-- C6 (counterexample): in the spec's example (viewport 100, row height 20,
50 items, total content 1000) a track click at the position whose fraction is
exactly 0.5 sets `renderOffset` to 500, not to `0.5 * (1000 - 100) = 450`:
the code multiplies the fraction by the total content height, not by
`totalContentHeight - viewportHeight`. -/
theorem c6_track_click_counterexample :
    getItemsTotalHeight lvC6 = 1000 ∧
    getScrollAreaHeight lvC6 = 100 ∧
    2 * (65 - Int.tdiv (getScrollbarHeight lvC6) 2 - lvC6.titleHeight) =
      getScrollAreaHeight lvC6 ∧
    (scrollAreaPress lvC6 65).renderOffset = 500 ∧
    ¬(scrollAreaPress lvC6 65).renderOffset = 450 := by decide

/-- C6 (amended): the track click at fraction 0.5 follows the mapping
`(pointerY - thumbHeight/2 - titleHeight) / scrollAreaHeight * totalContentHeight`
followed by clamping, which here yields `0.5 * 1000 = 500` (already in range). -/
theorem c6_track_click_maps_fraction_to_total :
    (scrollAreaPress lvC6 65).renderOffset =
      adjustRenderOffset lvC6 (Int.tdiv ((65 - Int.tdiv (getScrollbarHeight lvC6) 2 -
        lvC6.titleHeight) * getItemsTotalHeight lvC6) (getScrollAreaHeight lvC6)) ∧
    (scrollAreaPress lvC6 65).renderOffset = 500 := by decide

/-- C8: out-of-range operations are silently ignored with no partial mutation:
`setCurrentPage` with `index < -1` or `index >= pageCount` leaves the page
indicator unchanged, and a sort request whose registered comparator count does
not match the column count leaves the whole state (in particular
`renderItems`) unchanged. -/
theorem c8_out_of_range_silently_ignored (p : PageIndicator) (i : Int) (st : LV)
    (column : Int) (descending : Bool)
    (hp : i < -1 ∨ i ≥ p.pageCount)
    (hs : st.sortingAlgorithms.length ≠ st.columnTitles.length) :
    setCurrentPage p i = p ∧
    (sortItemsByColumn st column descending).renderItems = st.renderItems ∧
    sortItemsByColumn st column descending = st := by
  have hsort : sortItemsByColumn st column descending = st := by
    unfold sortItemsByColumn
    rw [if_neg]
    rintro ⟨-, h2, -⟩
    exact hs h2
  refine ⟨?_, by rw [hsort], hsort⟩
  unfold setCurrentPage
  rw [if_pos hp]

/-- C8 witness: the silent-ignore behaviour at concrete inputs. -/
theorem c8_out_of_range_witness :
    setCurrentPage piC8 5 = piC8 ∧
    (sortItemsByColumn lvC8 0 false).renderItems = lvC8.renderItems ∧
    sortItemsByColumn lvC8 0 false = lvC8 :=
  c8_out_of_range_silently_ignored piC8 5 lvC8 0 false (by decide) (by decide)

/-- C9: `setCurrentPage(-1)` is accepted (sets `currentPage` to `-1`) whenever
`pageCount` exceeds `-1`; in general, exactly the indices strictly below `-1`
or at/above `pageCount` are ignored, and every other index is stored. -/
theorem c9_setCurrentPage_minus_one (p : PageIndicator) (h : -1 < p.pageCount) :
    (setCurrentPage p (-1)).currentPage = -1 ∧
    (∀ i : Int, ¬(i < -1 ∨ i ≥ p.pageCount) → (setCurrentPage p i).currentPage = i) ∧
    (∀ i : Int, (i < -1 ∨ i ≥ p.pageCount) → setCurrentPage p i = p) := by
  refine ⟨?_, ?_, ?_⟩
  · unfold setCurrentPage
    rw [if_neg (by omega)]
  · intro i hi
    unfold setCurrentPage
    rw [if_neg hi]
  · intro i hi
    unfold setCurrentPage
    rw [if_pos hi]

/-- C9 witness: `setCurrentPage(-1)` at the concrete indicator. -/
theorem c9_setCurrentPage_minus_one_witness :
    (setCurrentPage piC8 (-1)).currentPage = -1 :=
  (c9_setCurrentPage_minus_one piC8 (by decide)).1

/-- C10: with no registered search algorithm the search filter is the
identity: `getSearchItems` returns its input unchanged for every search
string, `search(text)` resets `renderItems` to `listItems` for every text, and
`addItems` under any active search string preserves the membership equality of
`renderItems` and `listItems`. -/
theorem c10_no_search_algorithm_identity (st : LV) (halg : st.searchAlgorithm.isNone) :
    (∀ items, getSearchItems st items = items) ∧
    (∀ t, (search st t).renderItems = st.listItems ∧ (search st t).listItems = st.listItems) ∧
    ((∀ x, x ∈ st.renderItems ↔ x ∈ st.listItems) →
      ∀ new x, (x ∈ (addItems st new).renderItems ↔ x ∈ (addItems st new).listItems)) := by
  have hid : ∀ (c : String) (items : List Item),
      getSearchItems { st with searchContent := c } items = items := by
    intro c items
    unfold getSearchItems
    rw [if_pos (Or.inr halg)]
  refine ⟨?_, ?_, ?_⟩
  · intro items
    unfold getSearchItems
    rw [if_pos (Or.inr halg)]
  · intro t
    unfold search
    split
    · exact ⟨rfl, rfl⟩
    · exact ⟨hid t st.listItems, rfl⟩
  · intro hmem new x
    have hse : getSearchItems st new = new := by
      unfold getSearchItems
      rw [if_pos (Or.inr halg)]
    unfold addItems
    dsimp only
    rw [hse]
    split
    · unfold sortItemsByColumn
      split
      · simp only [List.mem_mergeSort, List.mem_append, hmem x]
      · simp only [List.mem_append, hmem x]
    · simp only [List.mem_append, hmem x]

/-- C10 witness: the identity filter at a concrete state with no search
algorithm. -/
theorem c10_no_search_algorithm_witness :
    getSearchItems lvC7 [9, 8] = [9, 8] :=
  (c10_no_search_algorithm_identity lvC7 (by decide)).1 [9, 8]

/-- C7: with no current selection, `selectNextItem` (offset 1) never errors:
on an empty render list it is a no-op apart from recording the old render
offset (the selection stays empty), and with items present it selects the
first render item and scrolls to the top. -/
theorem c7_select_next_empty_cases (st : LV) (hsel : st.selectionItems = []) :
    (st.renderItems = [] →
      selectNextItemWithOffset st 1 = some { st with oldRenderOffset := st.renderOffset } ∧
      ∃ st', selectNextItemWithOffset st 1 = some st' ∧ st'.selectionItems = []) ∧
    (∀ x xs, st.renderItems = x :: xs →
      ∃ st', selectNextItemWithOffset st 1 = some st' ∧
        st'.selectionItems = [x] ∧ st'.renderOffset = getTopRenderOffset) := by
  constructor
  · intro hr
    have heq : selectNextItemWithOffset st 1 =
        some { st with oldRenderOffset := st.renderOffset } := by
      unfold selectNextItemWithOffset
      dsimp only
      rw [if_pos (by simp [hsel])]
      unfold selectFirstItem
      dsimp only
      rw [hr]
    exact ⟨heq, ⟨_, heq, by simp [hsel]⟩⟩
  · intro x xs hr
    have heq : selectNextItemWithOffset st 1 =
        some (selectFirstItem { st with oldRenderOffset := st.renderOffset }) := by
      unfold selectNextItemWithOffset
      dsimp only
      rw [if_pos (by simp [hsel])]
    refine ⟨_, heq, ?_, ?_⟩
    · unfold selectFirstItem
      dsimp only
      rw [hr]
      dsimp only
      unfold addSelections clearSelections
      simp [hsel]
    · unfold selectFirstItem
      dsimp only
      rw [hr]

/-- C7 witness: both cases at concrete states (empty engine, and three items
with no selection). -/
theorem c7_select_next_empty_witness :
    (selectNextItemWithOffset lv0 1 = some { lv0 with oldRenderOffset := lv0.renderOffset }) ∧
    (∃ st', selectNextItemWithOffset lvC7 1 = some st' ∧
      st'.selectionItems = [4] ∧ st'.renderOffset = getTopRenderOffset) :=
  ⟨((c7_select_next_empty_cases lv0 (by decide)).1 (by decide)).1,
    (c7_select_next_empty_cases lvC7 (by decide)).2 4 [5, 6] (by decide)⟩

/-- Membership in the painting loop once the drawing phase has been reached
(`s ≤ i`): row `j` is painted iff it is among the remaining rows and either is
the first drawn row or fits before the accumulated render height exceeds the
widget height. -/
theorem paintLoop_mem_draw (s rh H : Int) (hrh : 0 < rh) (fuel : Nat) :
    ∀ (i : Nat) (rH : Int), s ≤ (i : Int) → ∀ j : Nat,
      (j ∈ paintLoop s rh H rH i fuel ↔
        ((i : Int) ≤ (j : Int) ∧ (j : Int) < (i : Int) + (fuel : Int) ∧
          ((j : Int) = (i : Int) ∨ rH + ((j : Int) - (i : Int)) * rh ≤ H))) := by
  induction fuel with
  | zero =>
    intro i rH hsi j
    simp only [paintLoop, List.not_mem_nil, false_iff]
    push_cast
    omega
  | succ fuel ih =>
    intro i rH hsi j
    rw [paintLoop, if_pos hsi]
    by_cases hbreak : rH + rh > H
    · rw [if_pos hbreak]
      simp only [List.mem_singleton]
      constructor
      · rintro rfl
        refine ⟨le_refl _, by push_cast; omega, Or.inl rfl⟩
      · rintro ⟨h1, _, h3 | h3⟩
        · exact_mod_cast h3
        · rcases eq_or_lt_of_le h1 with heq | hlt
          · exact_mod_cast heq.symm
          · exfalso
            have hd : (1 : Int) ≤ (j : Int) - (i : Int) := by omega
            have hmul : (1 : Int) * rh ≤ ((j : Int) - (i : Int)) * rh :=
              mul_le_mul_of_nonneg_right hd (le_of_lt hrh)
            rw [one_mul] at hmul
            linarith
    · rw [if_neg hbreak]
      simp only [List.mem_cons]
      rw [ih (i + 1) (rH + rh) (by push_cast; omega) j]
      constructor
      · rintro (rfl | ⟨h1, h2, h3⟩)
        · exact ⟨le_refl _, by push_cast; omega, Or.inl rfl⟩
        · refine ⟨by push_cast at h1 ⊢; omega, by push_cast at h2 ⊢; omega, Or.inr ?_⟩
          rcases h3 with h3 | h3
          · have hd : ((j : Int) - (i : Int)) = 1 := by push_cast at h3 ⊢; omega
            rw [hd, one_mul]
            linarith
          · have hring : rH + ((j : Int) - (i : Int)) * rh =
                rH + rh + ((j : Int) - ((i : Nat) + 1 : Nat)) * rh := by push_cast; ring
            rw [hring]
            exact h3
      · rintro ⟨h1, h2, h3 | h3⟩
        · exact Or.inl (by exact_mod_cast h3)
        · rcases eq_or_lt_of_le h1 with heq | hlt
          · exact Or.inl (by exact_mod_cast heq.symm)
          · refine Or.inr ⟨by push_cast; omega, by push_cast at h2 ⊢; omega, Or.inr ?_⟩
            have hring : rH + rh + ((j : Int) - ((i : Nat) + 1 : Nat)) * rh =
                rH + ((j : Int) - (i : Int)) * rh := by push_cast; ring
            rw [hring]
            exact h3

/-- Membership in the painting loop from the skipping phase (`i ≤ s`): the
drawn rows start at `s` and the accumulated render height starts from the
initial `rH`. -/
theorem paintLoop_mem_skip (s rh H : Int) (hrh : 0 < rh) (fuel : Nat) :
    ∀ (i : Nat) (rH : Int), (i : Int) ≤ s → ∀ j : Nat,
      (j ∈ paintLoop s rh H rH i fuel ↔
        (s ≤ (j : Int) ∧ (j : Int) < (i : Int) + (fuel : Int) ∧
          ((j : Int) = s ∨ rH + ((j : Int) - s) * rh ≤ H))) := by
  induction fuel with
  | zero =>
    intro i rH his j
    simp only [paintLoop, List.not_mem_nil, false_iff]
    push_cast
    omega
  | succ fuel ih =>
    intro i rH his j
    by_cases hsi : s ≤ (i : Int)
    · have his' : (i : Int) = s := le_antisymm his hsi
      rw [paintLoop_mem_draw s rh H hrh (fuel + 1) i rH hsi j, his']
    · rw [paintLoop, if_neg hsi]
      rw [ih (i + 1) rH (by push_cast; omega) j]
      constructor
      · rintro ⟨h1, h2, h3⟩
        exact ⟨h1, by push_cast at h2 ⊢; omega, h3⟩
      · rintro ⟨h1, h2, h3⟩
        exact ⟨h1, by push_cast at h2 ⊢; omega, h3⟩

/-- C3 (counterexample): at offset 10 with row height 20 and a 95px viewport,
the paint loop draws rows `[0..4]` while the spec's index range
`[floor(10/20), floor((10+95)/20)] ∩ [0..5] = [0..5]` also contains row 5:
the loop stops one partially visible row early whenever the offset is not
row-aligned and the remainders add up past a row. -/
theorem c3_painted_rows_counterexample :
    0 ≤ lvC3.renderOffset ∧ 0 < lvC3.rowHeight ∧ 0 ≤ lvC3.titleHeight ∧
    lvC3.titleHeight ≤ lvC3.widgetHeight ∧
    paintedRows lvC3 = [0, 1, 2, 3, 4] ∧
    specVisibleRange lvC3 = [0, 1, 2, 3, 4, 5] ∧
    ¬paintedRows lvC3 = specVisibleRange lvC3 := by decide

/-- C3 (amended): the set of painted row indices is exactly
`[floor(renderOffset/rowHeight), floor(renderOffset/rowHeight) + floor(viewportHeight/rowHeight)]`
intersected with the valid indices — the upper bound adds the two floors
separately instead of `floor((renderOffset+viewportHeight)/rowHeight)`. -/
theorem c3_visible_slice (st : LV) (hro : 0 ≤ st.renderOffset) (hrh : 0 < st.rowHeight)
    (hth : 0 ≤ st.titleHeight) (hH : st.titleHeight ≤ st.widgetHeight) :
    ∀ j : Nat, (j ∈ paintedRows st ↔
      (st.renderOffset / st.rowHeight ≤ (j : Int) ∧ j < st.renderItems.length ∧
        (j : Int) ≤ st.renderOffset / st.rowHeight +
          (st.widgetHeight - st.titleHeight) / st.rowHeight)) := by
  intro j
  unfold paintedRows
  have hs : Int.tdiv st.renderOffset st.rowHeight = st.renderOffset / st.rowHeight :=
    Int.tdiv_eq_ediv hro (le_of_lt hrh)
  have hinit : (if 0 < st.titleHeight then st.titleHeight else 0) = st.titleHeight := by
    split <;> omega
  rw [hs, hinit]
  have hq : 0 ≤ (st.widgetHeight - st.titleHeight) / st.rowHeight :=
    Int.ediv_nonneg (by omega) (le_of_lt hrh)
  rw [paintLoop_mem_skip (st.renderOffset / st.rowHeight) st.rowHeight st.widgetHeight hrh
    st.renderItems.length 0 st.titleHeight
    (by exact_mod_cast Int.ediv_nonneg hro (le_of_lt hrh)) j]
  constructor
  · rintro ⟨h1, h2, h3⟩
    refine ⟨h1, by push_cast at h2 ⊢; omega, ?_⟩
    rcases h3 with h3 | h3
    · linarith
    · have hmul : ((j : Int) - st.renderOffset / st.rowHeight) * st.rowHeight ≤
          st.widgetHeight - st.titleHeight := by linarith
      have := (Int.le_ediv_iff_mul_le hrh).mpr hmul
      linarith
  · rintro ⟨h1, h2, h3⟩
    refine ⟨h1, by push_cast; omega, Or.inr ?_⟩
    have hle : (j : Int) - st.renderOffset / st.rowHeight ≤
        (st.widgetHeight - st.titleHeight) / st.rowHeight := by linarith
    have := (Int.le_ediv_iff_mul_le hrh).mp hle
    linarith

/-- C3 witness: the characterization instantiated at the concrete paint state
and row 3. -/
theorem c3_visible_slice_witness :
    3 ∈ paintedRows lvC3 ↔
      (lvC3.renderOffset / lvC3.rowHeight ≤ (3 : Int) ∧ 3 < lvC3.renderItems.length ∧
        ((3 : Nat) : Int) ≤ lvC3.renderOffset / lvC3.rowHeight +
          (lvC3.widgetHeight - lvC3.titleHeight) / lvC3.rowHeight) :=
  c3_visible_slice lvC3 (by decide) (by decide) (by decide) (by decide) 3

/-- Sorting only rewrites `renderItems`; the order flags are untouched. -/
theorem sortItemsByColumn_sortingOrderes (st : LV) (c : Int) (d : Bool) :
    (sortItemsByColumn st c d).sortingOrderes = st.sortingOrderes := by
  unfold sortItemsByColumn
  split <;> rfl

/-- Sorting only rewrites `renderItems`; the active order flag is untouched. -/
theorem sortItemsByColumn_defaultSortingOrder (st : LV) (c : Int) (d : Bool) :
    (sortItemsByColumn st c d).defaultSortingOrder = st.defaultSortingOrder := by
  unfold sortItemsByColumn
  split <;> rfl

/-- C5: clicking the already-active column's header twice restores the order
flags and, for a comparator family whose active-flag order is a total order
over the current (sorted) `renderItems`, restores the exact item sequence;
clicking a non-active column resets its order flag to the canonical starting
order `true`. -/
theorem c5_sort_toggle (st : LV) (column : Nat) (alg : Item → Item → Bool → Bool) (b : Bool)
    (hguard : st.sortingAlgorithms.length ≠ 0 ∧
      st.sortingAlgorithms.length = st.columnTitles.length ∧
      st.sortingOrderes.length = st.columnTitles.length)
    (hcol : column < st.sortingOrderes.length)
    (hactive : st.defaultSortingColumn = (column : Int))
    (halg : listGetInt st.sortingAlgorithms (column : Int) = some alg)
    (hb : st.sortingOrderes.getD column false = b)
    (htrans : ∀ x y z : Item,
      (!(alg y x b)) = true → (!(alg z y b)) = true → (!(alg z x b)) = true)
    (htotal : ∀ x y : Item, ((!(alg y x b)) || (!(alg x y b))) = true)
    (hanti : ∀ x y : Item, (!(alg y x b)) = true → (!(alg x y b)) = true → x = y)
    (hsorted : st.renderItems.Pairwise (fun x y => (!(alg y x b)) = true)) :
    (clickColumnHeader (clickColumnHeader st column) column).sortingOrderes =
        st.sortingOrderes ∧
    (clickColumnHeader (clickColumnHeader st column) column).renderItems = st.renderItems ∧
    (clickColumnHeader (clickColumnHeader st column) column).defaultSortingOrder = b ∧
    (∀ c : Nat, c < st.sortingOrderes.length → (c : Int) ≠ st.defaultSortingColumn →
      ((clickColumnHeader st c).sortingOrderes.getD c false = true ∧
        (clickColumnHeader st c).defaultSortingOrder = true)) := by
  obtain ⟨hg1, hg2, hg3⟩ := hguard
  have hclick1 : clickColumnHeader st column =
      { st with sortingOrderes := st.sortingOrderes.set column (!b),
                defaultSortingColumn := (column : Int),
                defaultSortingOrder := !b,
                renderItems := st.renderItems.mergeSort (fun x y => !(alg y x (!b))) } := by
    unfold clickColumnHeader
    rw [if_pos ⟨hg1, hg2, hg3⟩, if_pos hcol]
    dsimp only
    rw [if_neg (by simp [hactive]), hb]
    unfold sortItemsByColumn
    rw [if_pos ⟨hg1, hg2, by rw [List.length_set]; exact hg3⟩]
    dsimp only
    rw [halg]
    simp only [Option.getD_some]
  have hgetd : (st.sortingOrderes.set column (!b)).getD column false = !b := by
    rw [List.getD_eq_getElem?_getD, List.getElem?_set_self hcol]
    rfl
  have hclick2 : clickColumnHeader (clickColumnHeader st column) column =
      { st with sortingOrderes := (st.sortingOrderes.set column (!b)).set column b,
                defaultSortingColumn := (column : Int),
                defaultSortingOrder := b,
                renderItems := (st.renderItems.mergeSort
                  (fun x y => !(alg y x (!b)))).mergeSort (fun x y => !(alg y x b)) } := by
    rw [hclick1]
    unfold clickColumnHeader
    rw [if_pos ⟨hg1, hg2, by rw [List.length_set]; exact hg3⟩]
    rw [if_pos (by rw [List.length_set]; exact hcol)]
    dsimp only
    rw [if_neg (by simp), hgetd, Bool.not_not]
    unfold sortItemsByColumn
    rw [if_pos ⟨hg1, hg2, by rw [List.length_set, List.length_set]; exact hg3⟩]
    dsimp only
    rw [show listGetInt st.sortingAlgorithms (column : Int) = some alg from halg]
    simp only [Option.getD_some]
  have hcolval : st.sortingOrderes[column] = b := by
    rw [List.getD_eq_getElem?_getD, List.getElem?_eq_getElem hcol] at hb
    exact hb
  have hset_self : st.sortingOrderes.set column b = st.sortingOrderes := by
    apply List.ext_getElem?
    intro n
    by_cases hn : n = column
    · subst hn
      rw [List.getElem?_set_self hcol, List.getElem?_eq_getElem hcol, hcolval]
    · rw [List.getElem?_set_ne (fun h => hn h.symm)]
  have hperm : List.Perm ((st.renderItems.mergeSort (fun x y => !(alg y x (!b)))).mergeSort
      (fun x y => !(alg y x b))) st.renderItems :=
    (List.mergeSort_perm _ _).trans (List.mergeSort_perm _ _)
  have hsorted2 : ((st.renderItems.mergeSort (fun x y => !(alg y x (!b)))).mergeSort
      (fun x y => !(alg y x b))).Pairwise (fun x y => (!(alg y x b)) = true) :=
    List.sorted_mergeSort htrans htotal _
  haveI : IsAntisymm Item (fun x y => (!(alg y x b)) = true) := ⟨hanti⟩
  have hmerge : ((st.renderItems.mergeSort (fun x y => !(alg y x (!b)))).mergeSort
      (fun x y => !(alg y x b))) = st.renderItems :=
    List.eq_of_perm_of_sorted hperm hsorted2 hsorted
  refine ⟨?_, ?_, ?_, ?_⟩
  · rw [hclick2]
    dsimp only
    rw [List.set_set, hset_self]
  · rw [hclick2]
    dsimp only
    exact hmerge
  · rw [hclick2]
  · intro c hc hne
    unfold clickColumnHeader
    rw [if_pos ⟨hg1, hg2, hg3⟩, if_pos hc]
    dsimp only
    rw [if_pos hne]
    constructor
    · rw [sortItemsByColumn_sortingOrderes]
      dsimp only
      rw [List.getD_eq_getElem?_getD, List.getElem?_set_self hc]
      rfl
    · rw [sortItemsByColumn_defaultSortingOrder]

/-- C5 witness: the double click at the concrete one-column state whose items
are sorted ascending. -/
theorem c5_sort_toggle_witness :
    (clickColumnHeader (clickColumnHeader lvC5 0) 0).sortingOrderes = lvC5.sortingOrderes ∧
    (clickColumnHeader (clickColumnHeader lvC5 0) 0).renderItems = lvC5.renderItems ∧
    (clickColumnHeader (clickColumnHeader lvC5 0) 0).defaultSortingOrder = false ∧
    (∀ c : Nat, c < lvC5.sortingOrderes.length → (c : Int) ≠ lvC5.defaultSortingColumn →
      ((clickColumnHeader lvC5 c).sortingOrderes.getD c false = true ∧
        (clickColumnHeader lvC5 c).defaultSortingOrder = true)) :=
  c5_sort_toggle lvC5 0 algC5 false ⟨by decide, by decide, by decide⟩ (by decide) (by decide)
    rfl (by decide)
    (fun x y z hxy hyz => by
      simp only [algC5, Bool.not_eq_true', decide_eq_false_iff_not, not_lt] at *
      exact le_trans hxy hyz)
    (fun x y => by
      simp only [algC5, Bool.or_eq_true, Bool.not_eq_true', decide_eq_false_iff_not, not_lt]
      exact le_total x y)
    (fun x y hxy hyx => by
      simp only [algC5, Bool.not_eq_true', decide_eq_false_iff_not, not_lt] at *
      exact le_antisymm hxy hyx)
    (by decide)

/-- The bottom render offset is never negative. -/
theorem getBottomRenderOffset_nonneg (st : LV) : 0 ≤ getBottomRenderOffset st := by
  unfold getBottomRenderOffset getItemsTotalHeight
  split <;> linarith

/-- The bottom render offset equals the clamp bound of the specification. -/
theorem getBottomRenderOffset_eq (st : LV) :
    getBottomRenderOffset st =
      max 0 ((st.renderItems.length : Int) * st.rowHeight -
        (st.widgetHeight - st.titleHeight)) := by
  unfold getBottomRenderOffset getItemsTotalHeight
  split
  · rw [max_eq_right (by linarith)]
    ring
  · rw [max_eq_left (by linarith)]

/-- `adjustRenderOffset` lands inside `[0, getBottomRenderOffset]`. -/
theorem adjustRenderOffset_bounds (st : LV) (x : Int) :
    0 ≤ adjustRenderOffset st x ∧ adjustRenderOffset st x ≤ getBottomRenderOffset st := by
  unfold adjustRenderOffset
  exact ⟨le_max_left _ _, max_le (getBottomRenderOffset_nonneg st) (min_le_right _ _)⟩

/-- The offset clamp invariant, phrased through `getBottomRenderOffset`. -/
theorem scrollInvariant_iff (st : LV) :
    scrollInvariant st ↔
      (0 ≤ st.renderOffset ∧ st.renderOffset ≤ getBottomRenderOffset st) := by
  unfold scrollInvariant
  rw [getBottomRenderOffset_eq]

/-- `selectFirstItem` keeps the title height and the offset clamp invariant. -/
theorem selectFirstItem_preserves (st : LV)
    (hth : 0 ≤ st.titleHeight) (h0 : 0 ≤ st.renderOffset)
    (hb : st.renderOffset ≤ getBottomRenderOffset st) :
    0 ≤ (selectFirstItem st).titleHeight ∧ 0 ≤ (selectFirstItem st).renderOffset ∧
      (selectFirstItem st).renderOffset ≤ getBottomRenderOffset (selectFirstItem st) := by
  unfold selectFirstItem
  split
  · exact ⟨hth, h0, hb⟩
  · exact ⟨hth, le_refl _, getBottomRenderOffset_nonneg _⟩

/-- `selectLastItem` keeps the title height and the offset clamp invariant. -/
theorem selectLastItem_preserves (st : LV)
    (hth : 0 ≤ st.titleHeight) (h0 : 0 ≤ st.renderOffset)
    (hb : st.renderOffset ≤ getBottomRenderOffset st) :
    0 ≤ (selectLastItem st).titleHeight ∧ 0 ≤ (selectLastItem st).renderOffset ∧
      (selectLastItem st).renderOffset ≤ getBottomRenderOffset (selectLastItem st) := by
  unfold selectLastItem
  split
  · exact ⟨hth, h0, hb⟩
  · exact ⟨hth, getBottomRenderOffset_nonneg _, le_refl _⟩

/-- Every scroll-affecting step keeps `0 ≤ titleHeight` and the offset clamp
invariant. -/
theorem stepScrollOp_preserves (st st' : LV) (op : ScrollOp)
    (hth : 0 ≤ st.titleHeight) (h0 : 0 ≤ st.renderOffset)
    (hb : st.renderOffset ≤ getBottomRenderOffset st)
    (hstep : stepScrollOp st op = some st') :
    0 ≤ st'.titleHeight ∧ 0 ≤ st'.renderOffset ∧
      st'.renderOffset ≤ getBottomRenderOffset st' := by
  cases op with
  | remove x =>
    simp only [stepScrollOp, Option.some.injEq] at hstep
    subst hstep
    simp only [removeItem]
    split
    · exact ⟨hth, (adjustRenderOffset_bounds _ _).1, (adjustRenderOffset_bounds _ _).2⟩
    · rename_i hcond
      push_neg at hcond
      refine ⟨hth, h0, ?_⟩
      rw [getBottomRenderOffset_eq]
      have hmax := le_max_right (0 : Int)
        ((((st.renderItems.erase x).length : Int) * st.rowHeight) -
          (st.widgetHeight - st.titleHeight))
      unfold getItemsTotalHeight at hcond
      dsimp only at hcond ⊢
      linarith
  | selNext off =>
    simp only [stepScrollOp, selectNextItemWithOffset] at hstep
    repeat' split at hstep
    all_goals try (exact Option.noConfusion hstep)
    all_goals rw [Option.some.injEq] at hstep
    all_goals subst hstep
    all_goals first
      | exact selectFirstItem_preserves _ hth h0 hb
      | exact ⟨hth, (adjustRenderOffset_bounds _ _).1, (adjustRenderOffset_bounds _ _).2⟩
      | exact ⟨hth, h0, hb⟩
  | selPrev off =>
    simp only [stepScrollOp, selectPrevItemWithOffset] at hstep
    repeat' split at hstep
    all_goals try (exact Option.noConfusion hstep)
    all_goals rw [Option.some.injEq] at hstep
    all_goals subst hstep
    all_goals first
      | exact selectFirstItem_preserves _ hth h0 hb
      | exact ⟨hth, (adjustRenderOffset_bounds _ _).1, (adjustRenderOffset_bounds _ _).2⟩
      | exact ⟨hth, h0, hb⟩
  | _ =>
    simp only [stepScrollOp, Option.some.injEq] at hstep
    subst hstep
    first
    | exact selectFirstItem_preserves st hth h0 hb
    | exact selectLastItem_preserves st hth h0 hb
    | (simp only [wheelScroll, ctrlScrollPageUp, ctrlScrollPageDown, ctrlScrollToHome,
         ctrlScrollToEnd, dragScrollbarMove, scrollAreaPress, refreshItems, clearItems,
         selectAllItems, shiftSelectNextItemWithOffset, shiftSelectPrevItemWithOffset,
         shiftSelectToHome, shiftSelectToEnd, sortItemsByColumn]
       repeat' split
       all_goals first
         | exact selectFirstItem_preserves _ hth h0 hb
         | exact selectLastItem_preserves _ hth h0 hb
         | exact ⟨hth, (adjustRenderOffset_bounds _ _).1, (adjustRenderOffset_bounds _ _).2⟩
         | exact ⟨hth, le_refl _, getBottomRenderOffset_nonneg _⟩
         | exact ⟨hth, getBottomRenderOffset_nonneg _, le_refl _⟩
         | exact ⟨hth, h0, hb⟩)

/-- C1: for every sequence of scroll-affecting operations (wheel, ctrl
page/home/end scrolls, scrollbar drag or track click, item removal,
`refreshItems`, selection-driven auto-scroll), starting from any state with a
non-negative title height that satisfies the clamp invariant, the invariant
`0 ≤ renderOffset ≤ max(0, count(renderItems)*rowHeight - viewportHeight)`
holds again after every operation (`viewportHeight` being the widget height
minus the title height). -/
theorem c1_offset_clamp_invariant (ops : List ScrollOp) : ∀ (st st' : LV),
    0 ≤ st.titleHeight → scrollInvariant st → execScrollOps st ops = some st' →
    scrollInvariant st' := by
  induction ops with
  | nil =>
    intro st st' _ hinv hrun
    simp only [execScrollOps, Option.some.injEq] at hrun
    subst hrun
    exact hinv
  | cons op ops ih =>
    intro st st' hth hinv hrun
    rw [execScrollOps] at hrun
    cases hstep : stepScrollOp st op with
    | none => rw [hstep] at hrun; exact Option.noConfusion hrun
    | some st1 =>
      rw [hstep] at hrun
      obtain ⟨h0, hb⟩ := (scrollInvariant_iff st).mp hinv
      obtain ⟨hth1, h01, hb1⟩ := stepScrollOp_preserves st st1 op hth h0 hb hstep
      exact ih st1 st' hth1 ((scrollInvariant_iff st1).mpr ⟨h01, hb1⟩) hrun

/-- C1 witness: a concrete ctrl page-down on a small list ends in a state
satisfying the clamp invariant. -/
theorem c1_offset_clamp_invariant_witness :
    scrollInvariant { lvC1 with renderOffset := 10 } :=
  c1_offset_clamp_invariant [ScrollOp.ctrlPageDown] lvC1 { lvC1 with renderOffset := 10 }
    (by decide) (by unfold scrollInvariant; decide) (by rfl)
